import Mathlib

/-
Verification of `object_oriented_hardware` (Beaglebone I2C bus layer and
temperature sensors) against its design specification.

The Python sources are shallowly embedded:
  * `retry_on_fail` / `retry_on_fail_internal` (beaglebone_i2c.py) becomes
    `retryOnFail`, a structurally recursive loop over an attempt function
    `Nat → Except ε α` (the `ε` parameter reflects the bare `except:` which
    catches every exception type).  Emitted log warnings become an explicit
    event list.
  * `BBI2CBus.__init__` becomes `busInit`, returning the events it performs
    (degraded-mode log, SMBus construction) next to its outcome.
  * the stub `smbus.SMBus` (stubs/smbus.py) becomes `stubSMBus`, a record of
    the six methods the bus layer invokes; a method the stub does not define
    is modelled as returning Python's `AttributeError`, which is what
    attribute lookup raises at call time.
  * the temperature sensors (temperature_sensors.py) are embedded over `ℚ`
    (exact arithmetic in place of IEEE floats); `math.log` is an abstract
    parameter `log : ℚ → ℚ` guarded by `mathLog`, which reproduces the
    `ValueError` Python raises on non-positive arguments.
-/

namespace OOHardware

/-! ## Retry loop (`retry_on_fail` in beaglebone_i2c.py)

Python source being embedded:

```
def retry_on_fail_internal(self, *args, **kwargs):
    num_tries = 0
    while num_tries <= 3:
        try:
            with self._get_lock():
                return func(self, *args, **kwargs)
            break
        except:
            num_tries += 1
            if num_tries < 3:
                self.log.warning("... Retrying.")
            else:
                self.log.warning("Giving up after {} attempts!".format(num_tries))
                raise
```

The `with self._get_lock()` block scopes exactly one call of `func`; the
`break` after `return` is dead code.  One attempt of the wrapped transaction
is an element of `Nat → Except ε α`: `attempt k` is the outcome of the call
made while `num_tries = k`.
-/

/-- A logging event emitted by the retry loop. `retryWarning` carries the
operation name and bus number interpolated into the message; `giveUpWarning`
carries the `num_tries` value interpolated into "Giving up after {} attempts!". -/
inductive RetryEvent where
  | retryWarning (opName : String) (busNum : Nat)
  | giveUpWarning (numTries : Nat)
deriving DecidableEq, Repr

/-- Outcome of `retry_on_fail_internal`: a normal return, a (re-)raised
exception, or the implicit `None` Python would return if the `while` loop
ever exited without returning or raising. -/
inductive RetryResult (ε α : Type) where
  | ok (v : α)
  | raised (e : ε)
  | noneReturned
deriving DecidableEq, Repr

/-- The `while num_tries <= 3` loop of `retry_on_fail_internal`.  `fuel` is a
purely technical bound making the recursion structural; it strictly exceeds
the number of loop iterations whenever `fuel + numTries ≥ 5`, so with the
initial values (`fuel = 5`, `numTries = 0`) the `fuel = 0` branch is
unreachable and every behaviour is the loop's own. -/
def retryLoop (attempt : Nat → Except ε α) (opName : String) (busNum : Nat) :
    Nat → Nat → List RetryEvent × RetryResult ε α
  | 0, _ => ([], .noneReturned)
  | fuel + 1, numTries =>
    if numTries ≤ 3 then
      match attempt numTries with
      | .ok v => ([], .ok v)
      | .error e =>
        if numTries + 1 < 3 then
          let rest := retryLoop attempt opName busNum fuel (numTries + 1)
          (.retryWarning opName busNum :: rest.1, rest.2)
        else
          ([.giveUpWarning (numTries + 1)], .raised e)
    else
      ([], .noneReturned)

/-- `retry_on_fail_internal` itself: the loop entered with `num_tries = 0`. -/
def retryOnFail (attempt : Nat → Except ε α) (opName : String) (busNum : Nat) :
    List RetryEvent × RetryResult ε α :=
  retryLoop attempt opName busNum 5 0

/-- A deterministic transport that fails (with the attempt index as the
exception value) on its first `n` invocations and returns `v` afterwards —
the harness the spec's testable property quantifies over. -/
def failsFirst (n : Nat) (v : Nat) : Nat → Except Nat Nat :=
  fun k => if k < n then .error k else .ok v

/-- Shared evaluation lemma: one unfolding of the whole retry loop.  The
loop makes at most three attempts: a third consecutive failure trips the
`num_tries < 3` check and re-raises. -/
theorem retryOnFail_spec (attempt : Nat → Except ε α) (opName : String) (busNum : Nat) :
    retryOnFail attempt opName busNum =
      match attempt 0 with
      | .ok v => ([], .ok v)
      | .error _ =>
        match attempt 1 with
        | .ok v => ([.retryWarning opName busNum], .ok v)
        | .error _ =>
          match attempt 2 with
          | .ok v => ([.retryWarning opName busNum, .retryWarning opName busNum], .ok v)
          | .error e =>
            ([.retryWarning opName busNum, .retryWarning opName busNum, .giveUpWarning 3],
              .raised e) := by
  simp only [retryOnFail, retryLoop]
  cases attempt 0 <;> cases attempt 1 <;> cases attempt 2 <;> rfl

/-- C1: the spec claims the retry budget is 4 total attempts (success iff the
transport's deterministic failure count N satisfies N ≤ 3).  The code's
`num_tries < 3` check re-raises on the 3rd consecutive failure, so only 3
attempts are ever made: with N = 3 (failure on attempts 1–3, success
available on attempt 4) the operation raises instead of succeeding, while
N = 2 still succeeds.  This theorem evaluates the embedded loop at both
inputs. -/
theorem retry_makes_at_most_three_attempts :
    retryOnFail (failsFirst 3 42) "write8" 0 =
      ([.retryWarning "write8" 0, .retryWarning "write8" 0, .giveUpWarning 3], .raised 2) ∧
    retryOnFail (failsFirst 2 42) "write8" 0 =
      ([.retryWarning "write8" 0, .retryWarning "write8" 0], .ok 42) := by
  refine ⟨?_, ?_⟩ <;> decide

/-- C9: the bare `except:` makes the wrapper type-agnostic — the exception
type `ε` is arbitrary, covering `AttributeError`, `TypeError`, transport
errors alike — and after the budget is exhausted the bare `raise` re-raises
the last attempt's exception value unchanged, with no wrapping in any
distinct exhaustion type. -/
theorem retry_reraises_original_exception {ε α : Type} (attempt : Nat → Except ε α)
    (opName : String) (busNum : Nat) (e0 e1 e2 : ε)
    (h0 : attempt 0 = .error e0) (h1 : attempt 1 = .error e1) (h2 : attempt 2 = .error e2) :
    retryOnFail attempt opName busNum =
      ([.retryWarning opName busNum, .retryWarning opName busNum, .giveUpWarning 3],
        .raised e2) := by
  rw [retryOnFail_spec, h0, h1, h2]

/-- Witness for C9 at a concrete always-failing transport over `ε = Nat`. -/
theorem retry_reraises_original_exception_witness :
    retryOnFail (fun k => (Except.error k : Except Nat Nat)) "read16" 1 =
      ([.retryWarning "read16" 1, .retryWarning "read16" 1, .giveUpWarning 3],
        .raised 2) :=
  retry_reraises_original_exception (fun k => Except.error k) "read16" 1 0 1 2 rfl rfl rfl

/-- The exception taxonomy the spec postulates in §7: transport-level errors
and a distinct `RetryBudgetExhausted` wrapper carrying the last transport
error as its cause.  The embedded code can raise values of this type, so we
can ask which constructor an exhausted operation actually surfaces. -/
inductive SpecException where
  | transportError (code : Nat)
  | retryBudgetExhausted (cause : Nat)
deriving DecidableEq, Repr

/-- C3 counterexample: running a wrapped operation whose transport raises
`transportError k` on every attempt `k`, exhaustion surfaces the bare
re-raised `transportError 2` — not `retryBudgetExhausted` carrying it as a
cause, contrary to the claim's wording. -/
theorem retry_exhaustion_not_wrapped :
    (retryOnFail (fun k => (Except.error (SpecException.transportError k) : Except SpecException Nat))
        "read8" 1).2 = .raised (.transportError 2) ∧
    (retryOnFail (fun k => (Except.error (SpecException.transportError k) : Except SpecException Nat))
        "read8" 1).2 ≠ .raised (.retryBudgetExhausted 2) := by
  refine ⟨?_, ?_⟩ <;> decide

/-- C3 (amended): each failed attempt with budget remaining emits a warning
naming the operation and bus before the next attempt; on final exhaustion
(the 3rd consecutive failure) a distinct giving-up warning is emitted and
the last underlying exception is re-raised unchanged; and no run of the
wrapper ever falls off the loop returning `None` — every operation either
returns a value or raises. -/
theorem retry_warns_then_reraises {ε α : Type} (opName : String) (busNum : Nat) :
    (∀ (attempt : Nat → Except ε α) (e0 : ε) (v : α),
      attempt 0 = .error e0 → attempt 1 = .ok v →
      retryOnFail attempt opName busNum = ([.retryWarning opName busNum], .ok v)) ∧
    (∀ (attempt : Nat → Except ε α) (e0 e1 e2 : ε),
      attempt 0 = .error e0 → attempt 1 = .error e1 → attempt 2 = .error e2 →
      retryOnFail attempt opName busNum =
        ([.retryWarning opName busNum, .retryWarning opName busNum, .giveUpWarning 3],
          .raised e2)) ∧
    (∀ (attempt : Nat → Except ε α),
      (retryOnFail attempt opName busNum).2 ≠ .noneReturned) := by
  refine ⟨?_, ?_, ?_⟩
  · intro attempt e0 v h0 h1
    rw [retryOnFail_spec, h0, h1]
  · intro attempt e0 e1 e2 h0 h1 h2
    rw [retryOnFail_spec, h0, h1, h2]
  · intro attempt
    rw [retryOnFail_spec]
    cases attempt 0 <;> cases attempt 1 <;> cases attempt 2 <;> simp

/-- Witness for the amended C3: a transport failing once then succeeding,
and one failing on all attempts, evaluated concretely. -/
theorem retry_warns_then_reraises_witness :
    retryOnFail (failsFirst 1 7) "read8" 0 = ([.retryWarning "read8" 0], .ok 7) ∧
    retryOnFail (failsFirst 9 7) "read8" 0 =
      ([.retryWarning "read8" 0, .retryWarning "read8" 0, .giveUpWarning 3], .raised 2) ∧
    (retryOnFail (failsFirst 9 7) "read8" 0).2 ≠ .noneReturned :=
  ⟨(retry_warns_then_reraises "read8" 0).1 (failsFirst 1 7) 0 7 rfl rfl,
    (retry_warns_then_reraises "read8" 0).2.1 (failsFirst 9 7) 0 1 2 rfl rfl rfl,
    (retry_warns_then_reraises "read8" 0).2.2 (failsFirst 9 7)⟩

/-! ## `BBI2CBus.__init__` (beaglebone_i2c.py)

```
def __init__(self, bus_num):
    self.log = logging.getLogger(__name__)
    try: import smbus
    except ImportError:
        from object_oriented_hardware.stubs import smbus
        self.log.error("Cannot import smbus; Continuing with a stub.")
    assert 0 <= bus_num <= 2, "Error, valid i2c buses are only {}."...
    self.bus = smbus.SMBus(bus_num)
```

The environment-dependent `import smbus` is a boolean parameter
(`smbusAvailable`).  The `assert` raises `AssertionError` for an
out-of-range bus number — the failure the spec's error taxonomy names
`ConfigurationError` — *before* the `smbus.SMBus(bus_num)` call, so no
transport primitive is constructed; `__init__` is not wrapped by
`retry_on_fail`, so the failure propagates on the first raise.
-/

/-- Side effects `__init__` can perform, in order: the degraded-mode log
message emitted when falling back to the stub, and the construction of the
`SMBus` transport primitive. -/
inductive InitEvent where
  | degradedModeLog
  | constructSMBus (busNum : Int)
deriving DecidableEq, Repr

/-- The failure `__init__` can raise: the `assert` statement's
`AssertionError`, which the spec's taxonomy calls `ConfigurationError`. -/
inductive InitError where
  | configurationError
deriving DecidableEq, Repr

/-- The state `__init__` establishes on success. -/
structure BusFields where
  busNum : Int
  usingStub : Bool
deriving DecidableEq, Repr

/-- `BBI2CBus.__init__`, returning the list of performed side effects next
to its outcome. -/
def busInit (smbusAvailable : Bool) (busNum : Int) : List InitEvent × Except InitError BusFields :=
  let importEvents : List InitEvent := if smbusAvailable then [] else [.degradedModeLog]
  if 0 ≤ busNum ∧ busNum ≤ 2 then
    (importEvents ++ [.constructSMBus busNum], .ok ⟨busNum, !smbusAvailable⟩)
  else
    (importEvents, .error .configurationError)

/-- C4: an out-of-range bus number makes construction fail immediately with
the configuration error (the `assert`), with no `SMBus` transport primitive
constructed — and the failure is raised directly, not routed through the
retry wrapper; an in-range bus number constructs the transport primitive
and succeeds. -/
theorem busInit_validates_bus_num (smbusAvailable : Bool) (busNum : Int) :
    (¬(0 ≤ busNum ∧ busNum ≤ 2) →
      (busInit smbusAvailable busNum).2 = .error .configurationError ∧
      .constructSMBus busNum ∉ (busInit smbusAvailable busNum).1) ∧
    ((0 ≤ busNum ∧ busNum ≤ 2) →
      (busInit smbusAvailable busNum).2 = .ok ⟨busNum, !smbusAvailable⟩ ∧
      .constructSMBus busNum ∈ (busInit smbusAvailable busNum).1) := by
  constructor
  · intro h
    refine ⟨?_, ?_⟩
    · simp [busInit, if_neg h]
    · cases smbusAvailable <;> simp [busInit, if_neg h]
  · intro h
    refine ⟨?_, ?_⟩
    · simp [busInit, if_pos h]
    · cases smbusAvailable <;> simp [busInit, if_pos h]

/-- Witness for C4 at bus number 3 (out of range) and 1 (in range). -/
theorem busInit_validates_bus_num_witness :
    ((busInit true 3).2 = .error .configurationError ∧
      .constructSMBus 3 ∉ (busInit true 3).1) ∧
    ((busInit true 1).2 = .ok ⟨1, false⟩ ∧
      .constructSMBus 1 ∈ (busInit true 1).1) :=
  ⟨(busInit_validates_bus_num true 3).1 (by decide),
    (busInit_validates_bus_num true 1).2 (by decide)⟩

/-! ## The SMBus transport surface and the stub (stubs/smbus.py)

The bus layer invokes six methods on its `self.bus` object.  A transport
implementation is modelled as a record of those six methods.  The stub class
in `stubs/smbus.py` defines only four of them:

```
class SMBus(object):
    def __init__(self, bus): pass
    def write_byte_data(self, a, b, c): pass
    def write_i2c_block_data(self, a, b, c): pass
    def read_byte_data(self, a, b): return 0
    def read_i2c_block_data(self, a, b, c): return [0] * c
```

`write_word_data` and `read_word_data` are absent, so invoking them on a
stub instance raises `AttributeError` — modelled as those two methods
returning that error.  The stub's constructor logs nothing; the only
degraded-mode message is `log.error(...)` at import-fallback time in
`BBI2CBus.__init__` (see `busInit`).
-/

/-- Exceptions arising from calling a method the stub does not define. -/
inductive PyError where
  | attributeError (methodName : String)
deriving DecidableEq, Repr

/-- The six-method surface of an `smbus.SMBus`-like transport, as consumed
by `BBI2CBus`. -/
structure SMBusModel (ε : Type) where
  write_byte_data : Nat → Nat → Nat → Except ε Unit
  write_word_data : Nat → Nat → Nat → Except ε Unit
  write_i2c_block_data : Nat → Nat → List Nat → Except ε Unit
  read_byte_data : Nat → Nat → Except ε Nat
  read_word_data : Nat → Nat → Except ε Nat
  read_i2c_block_data : Nat → Nat → Nat → Except ε (List Nat)

/-- The stub `SMBus` from stubs/smbus.py: byte and block operations are
no-ops / zero-valued, the two word methods do not exist on the class and
raise `AttributeError` when called. -/
def stubSMBus : SMBusModel PyError where
  write_byte_data := fun _ _ _ => .ok ()
  write_word_data := fun _ _ _ => .error (.attributeError "write_word_data")
  write_i2c_block_data := fun _ _ _ => .ok ()
  read_byte_data := fun _ _ => .ok 0
  read_word_data := fun _ _ => .error (.attributeError "read_word_data")
  read_i2c_block_data := fun _ _ length => .ok (List.replicate length 0)

/-! The six `@retry_on_fail`-wrapped `BBI2CBus` operations.  Each attempt
performs the corresponding transport call with the given arguments (the
`DEBUG`-gated trace logging is off by default and purely observational, so
it is not modelled).  `busNum` is `self.bus_num`, interpolated into the
retry warnings. -/

def write8 (bus : SMBusModel ε) (busNum address reg value : Nat) :
    List RetryEvent × RetryResult ε Unit :=
  retryOnFail (fun _ => bus.write_byte_data address reg value) "write8" busNum

def write16 (bus : SMBusModel ε) (busNum address reg value : Nat) :
    List RetryEvent × RetryResult ε Unit :=
  retryOnFail (fun _ => bus.write_word_data address reg value) "write16" busNum

def write_list (bus : SMBusModel ε) (busNum address reg : Nat) (values : List Nat) :
    List RetryEvent × RetryResult ε Unit :=
  retryOnFail (fun _ => bus.write_i2c_block_data address reg values) "write_list" busNum

def read8 (bus : SMBusModel ε) (busNum address reg : Nat) :
    List RetryEvent × RetryResult ε Nat :=
  retryOnFail (fun _ => bus.read_byte_data address reg) "read8" busNum

def read16 (bus : SMBusModel ε) (busNum address reg : Nat) :
    List RetryEvent × RetryResult ε Nat :=
  retryOnFail (fun _ => bus.read_word_data address reg) "read16" busNum

def read_list (bus : SMBusModel ε) (busNum address reg length : Nat) :
    List RetryEvent × RetryResult ε (List Nat) :=
  retryOnFail (fun _ => bus.read_i2c_block_data address reg length) "read_list" busNum

/-- C6: against the stub, byte and block operations behave as claimed —
reads return zero values (`read_list` a sequence of `length` zeros), writes
are silent no-ops — but the stub does not implement the full six-operation
contract: it lacks `write_word_data` and `read_word_data`, so `write16` and
`read16` raise `AttributeError` on every attempt and propagate it after
retry exhaustion, refuting "every wrapped bus operation succeeds against
the stub". -/
theorem stub_word_operations_fail :
    write8 stubSMBus 0 0x48 0x01 0xFF = ([], .ok ()) ∧
    write_list stubSMBus 0 0x48 0x01 [1, 2] = ([], .ok ()) ∧
    read8 stubSMBus 0 0x48 0x01 = ([], .ok 0) ∧
    read_list stubSMBus 0 0x48 0x01 4 = ([], .ok [0, 0, 0, 0]) ∧
    write16 stubSMBus 0 0x48 0x01 0xFF =
      ([.retryWarning "write16" 0, .retryWarning "write16" 0, .giveUpWarning 3],
        .raised (.attributeError "write_word_data")) ∧
    read16 stubSMBus 0 0x48 0x01 =
      ([.retryWarning "read16" 0, .retryWarning "read16" 0, .giveUpWarning 3],
        .raised (.attributeError "read_word_data")) := by
  refine ⟨?_, ?_, ?_, ?_, ?_, ?_⟩ <;> rfl

/-! ## Bus registry (the `Singleton` machinery)

`beaglebone_i2c.py` builds per-bus singletons via
`from .singleton import Singleton`; the file `singleton.py` is not part of
the repository snapshot, so the registry is modelled from the spec. -/

/-- A bus handle as observed by callers.  `lockId` and `smbusId` are
instance identities (each freshly constructed lock / transport primitive
receives a new id), so identity-equality of handles, locks, and transport
primitives is equality of these fields. -/
structure BusHandle where
  busNum : Int
  lockId : Nat
  smbusId : Nat
deriving DecidableEq, Repr

/-- The process-wide registry state: the `BusId → BusHandle` mapping, a
fresh-identity counter, and the log of transport-primitive constructions
(one entry per `SMBus(bus_num)` call ever made). -/
structure Registry where
  handles : List (Int × BusHandle)
  nextId : Nat
  smbusConstructions : List Int
deriving DecidableEq, Repr

/-- The registry at process start: no handles, nothing constructed. -/
def Registry.empty : Registry := ⟨[], 0, []⟩

/-- Modelled from the spec: the `Singleton`-backed `get_or_create_handle`
of §4.2, whose implementation (`singleton.py`) is missing from the
repository snapshot.  Per the spec: an id outside the supported set {0,1,2}
fails with `ConfigurationError` and constructs nothing; otherwise the
mapping is consulted and the existing handle returned, or — exactly once,
lazily, on first access — a new handle owning one fresh lock and one fresh
transport primitive is created and recorded. -/
def get_or_create_handle (r : Registry) (busId : Int) :
    Except InitError (BusHandle × Registry) :=
  if 0 ≤ busId ∧ busId ≤ 2 then
    match r.handles.lookup busId with
    | some h => .ok (h, r)
    | none =>
      let h : BusHandle := ⟨busId, r.nextId, r.nextId + 1⟩
      .ok (h, ⟨(busId, h) :: r.handles, r.nextId + 2, busId :: r.smbusConstructions⟩)
  else
    .error .configurationError

/-- C2: for a supported bus id, two sequential `get_or_create_handle` calls
return the identical handle instance — hence the same lock and the same
transport primitive (identity of `lockId` and `smbusId`) — the registry is
unchanged by the second call, and exactly one transport primitive has been
constructed for that id. -/
theorem get_or_create_handle_idempotent (busId : Int)
    (h : 0 ≤ busId ∧ busId ≤ 2) :
    ∃ (hdl : BusHandle) (r1 : Registry),
      get_or_create_handle Registry.empty busId = .ok (hdl, r1) ∧
      get_or_create_handle r1 busId = .ok (hdl, r1) ∧
      r1.smbusConstructions.count busId = 1 := by
  refine ⟨⟨busId, 0, 1⟩, ⟨[(busId, ⟨busId, 0, 1⟩)], 2, [busId]⟩, ?_, ?_, ?_⟩
  · simp [get_or_create_handle, if_pos h, Registry.empty, List.lookup]
  · simp [get_or_create_handle, if_pos h, List.lookup]
  · simp

/-- Witness for C2 at bus id 1. -/
theorem get_or_create_handle_idempotent_witness :
    (0 ≤ (1 : Int) ∧ (1 : Int) ≤ 2) ∧
    ∃ (hdl : BusHandle) (r1 : Registry),
      get_or_create_handle Registry.empty 1 = .ok (hdl, r1) ∧
      get_or_create_handle r1 1 = .ok (hdl, r1) ∧
      r1.smbusConstructions.count 1 = 1 :=
  ⟨by decide, get_or_create_handle_idempotent 1 (by decide)⟩

/-! ## Temperature sensors (temperature_sensors.py)

Embedded over `ℚ` (exact arithmetic standing in for Python floats; every
numeric literal of the source is an exact rational, and for the concrete
AD8495 datapoints all float operations are exact).  Python's `math.log` is
an abstract parameter `log : ℚ → ℚ`; `mathLog` wraps it with the
`ValueError` Python raises for a non-positive argument.  Division by zero is
`ZeroDivisionError`. -/

/-- `TemperatureSensor.ABSOLUTE_ZERO_OFFSET_C = 273.15`. -/
def ABSOLUTE_ZERO_OFFSET_C : ℚ := 273.15

/-- Exceptions float arithmetic and `math.log` can raise. -/
inductive MathError where
  | zeroDivisionError
  | valueError
deriving DecidableEq, Repr

/-- Base-class `read_temperature_c`:
`self.read_temperature_k() - ABSOLUTE_ZERO_OFFSET_C`, propagating any
exception the Kelvin read raises. -/
def derived_read_temperature_c (tk : Except ε ℚ) : Except ε ℚ :=
  tk.map (fun t => t - ABSOLUTE_ZERO_OFFSET_C)

/-- Base-class `read_temperature_f`:
`self.read_temperature_c() * (9.0/5.0) + 32.0`, propagating exceptions. -/
def derived_read_temperature_f (tc : Except ε ℚ) : Except ε ℚ :=
  tc.map (fun t => t * (9 / 5) + 32)

/-- `Thermistor.__init__` fields: Steinhart–Hart constants, pulldown
resistance and divider input voltage. -/
structure ThermistorParams where
  a : ℚ
  b : ℚ
  c : ℚ
  r2_ohms : ℚ
  vin_v : ℚ
deriving DecidableEq, Repr

/-- `Thermistor._read_resistance`:
`self.r2_ohms * (self.vin_v/voltage_v - 1)`; a zero voltage sample raises
`ZeroDivisionError` at the division. -/
def read_resistance (p : ThermistorParams) (voltage_v : ℚ) : Except MathError ℚ :=
  if voltage_v = 0 then .error .zeroDivisionError
  else .ok (p.r2_ohms * (p.vin_v / voltage_v - 1))

/-- `math.log`, raising `ValueError` ("math domain error") on a
non-positive argument; on the positive domain its value is the abstract
`log` parameter's. -/
def mathLog (log : ℚ → ℚ) (x : ℚ) : Except MathError ℚ :=
  if x ≤ 0 then .error .valueError else .ok (log x)

/-- `Thermistor.read_temperature_k` on a voltage sample `voltage_v`:
`1.0/(self.a + self.b * log(r1_ohms) + self.c * log(r1_ohms)**3)`, with
each raising sub-expression made explicit (resistance division, `log`
domain, and the outer division when the Steinhart–Hart denominator is
zero). -/
def thermistor_read_temperature_k (log : ℚ → ℚ) (p : ThermistorParams) (voltage_v : ℚ) :
    Except MathError ℚ :=
  match read_resistance p voltage_v with
  | .error e => .error e
  | .ok r1_ohms =>
    match mathLog log r1_ohms with
    | .error e => .error e
    | .ok lr =>
      let d := p.a + p.b * lr + p.c * lr ^ 3
      if d = 0 then .error .zeroDivisionError else .ok (1 / d)

/-- `Thermistor.read_temperature_c`, inherited from the base class. -/
def thermistor_read_temperature_c (log : ℚ → ℚ) (p : ThermistorParams) (voltage_v : ℚ) :
    Except MathError ℚ :=
  derived_read_temperature_c (thermistor_read_temperature_k log p voltage_v)

/-- `Thermistor.read_temperature_f`, inherited from the base class. -/
def thermistor_read_temperature_f (log : ℚ → ℚ) (p : ThermistorParams) (voltage_v : ℚ) :
    Except MathError ℚ :=
  derived_read_temperature_f (thermistor_read_temperature_c log p voltage_v)

/-- The state `AnalogTemperatureSensor.__init__` precomputes. -/
structure AnalogTemperatureSensor where
  gain : ℚ
  offset : ℚ
deriving DecidableEq, Repr

/-- `AnalogTemperatureSensor.__init__`:
`self.gain = (t1_c - t2_c)/(v1_v - v2_v)`;
`self.offset = self.gain * (0 - v1_v) + t1_c`. -/
def analogSensorInit (v1_v t1_c v2_v t2_c : ℚ) : AnalogTemperatureSensor :=
  let gain := (t1_c - t2_c) / (v1_v - v2_v)
  ⟨gain, gain * (0 - v1_v) + t1_c⟩

/-- `AnalogTemperatureSensor.read_temperature_c` on a voltage sample:
`self.gain * voltage_v + self.offset` (overrides the base class). -/
def AnalogTemperatureSensor.read_temperature_c (s : AnalogTemperatureSensor)
    (voltage_v : ℚ) : ℚ :=
  s.gain * voltage_v + s.offset

/-- `AnalogTemperatureSensor.read_temperature_k`:
`self.read_temperature_c() + ABSOLUTE_ZERO_OFFSET_C`. -/
def AnalogTemperatureSensor.read_temperature_k (s : AnalogTemperatureSensor)
    (voltage_v : ℚ) : ℚ :=
  s.read_temperature_c voltage_v + ABSOLUTE_ZERO_OFFSET_C

/-- Base-class `read_temperature_f` as dispatched for the analog sensor:
`self.read_temperature_c() * (9.0/5.0) + 32.0` with the overriding
`read_temperature_c`. -/
def AnalogTemperatureSensor.read_temperature_f (s : AnalogTemperatureSensor)
    (voltage_v : ℚ) : ℚ :=
  s.read_temperature_c voltage_v * (9 / 5) + 32

/-- `AD8495TCAmplifier` with its default calibration datapoints
`(v1_v, t1_c) = (1.25, 0.0)` and `(v2_v, t2_c) = (1.5, 50)`. -/
def AD8495TCAmplifier : AnalogTemperatureSensor :=
  analogSensorInit 1.25 0 1.5 50

/-- C7: construction computes `gain = (t1-t2)/(v1-v2)` and
`offset = gain*(-v1)+t1`; `read_temperature_c` returns `gain*V + offset`;
and with the `AD8495TCAmplifier` defaults the voltages 1.25, 1.5 and 1.375
read 0, 50 and 25 degrees Celsius respectively. -/
theorem analog_two_point_model :
    (∀ v1_v t1_c v2_v t2_c : ℚ,
      (analogSensorInit v1_v t1_c v2_v t2_c).gain = (t1_c - t2_c) / (v1_v - v2_v) ∧
      (analogSensorInit v1_v t1_c v2_v t2_c).offset =
        (t1_c - t2_c) / (v1_v - v2_v) * (-v1_v) + t1_c) ∧
    (∀ (s : AnalogTemperatureSensor) (voltage_v : ℚ),
      s.read_temperature_c voltage_v = s.gain * voltage_v + s.offset) ∧
    AD8495TCAmplifier.read_temperature_c 1.25 = 0 ∧
    AD8495TCAmplifier.read_temperature_c 1.5 = 50 ∧
    AD8495TCAmplifier.read_temperature_c 1.375 = 25 := by
  refine ⟨fun v1_v t1_c v2_v t2_c => ⟨rfl, ?_⟩, fun s voltage_v => rfl, ?_, ?_, ?_⟩
  · simp [analogSensorInit, zero_sub]
  all_goals
    norm_num [AD8495TCAmplifier, analogSensorInit, AnalogTemperatureSensor.read_temperature_c]

/-- C8: the three unit accessors are mutually consistent through the fixed
constant 273.15, in both inheritance directions.  For the thermistor (Kelvin
native, Celsius and Fahrenheit derived by the base class): a Kelvin reading
`tk` yields `tk - 273.15` Celsius and `(tk - 273.15)*9/5 + 32` Fahrenheit.
For the analog sensor (Celsius native, Kelvin derived): the identities hold
exactly as rational arithmetic. -/
theorem unit_conversions_consistent :
    (∀ (log : ℚ → ℚ) (p : ThermistorParams) (voltage_v tk : ℚ),
      thermistor_read_temperature_k log p voltage_v = .ok tk →
      thermistor_read_temperature_c log p voltage_v = .ok (tk - 273.15) ∧
      thermistor_read_temperature_f log p voltage_v = .ok ((tk - 273.15) * (9 / 5) + 32)) ∧
    (∀ (s : AnalogTemperatureSensor) (voltage_v : ℚ),
      s.read_temperature_c voltage_v = s.read_temperature_k voltage_v - 273.15 ∧
      s.read_temperature_f voltage_v =
        (s.read_temperature_k voltage_v - 273.15) * (9 / 5) + 32) := by
  constructor
  · intro log p voltage_v tk h
    constructor
    · simp [thermistor_read_temperature_c, derived_read_temperature_c, h,
        ABSOLUTE_ZERO_OFFSET_C, Except.map]
    · simp [thermistor_read_temperature_f, thermistor_read_temperature_c,
        derived_read_temperature_c, derived_read_temperature_f, h,
        ABSOLUTE_ZERO_OFFSET_C, Except.map]
  · intro s voltage_v
    constructor
    · simp only [AnalogTemperatureSensor.read_temperature_k, ABSOLUTE_ZERO_OFFSET_C]
      ring
    · simp only [AnalogTemperatureSensor.read_temperature_f,
        AnalogTemperatureSensor.read_temperature_k, ABSOLUTE_ZERO_OFFSET_C]
      ring

/-- Witness for C8: a concrete thermistor configuration whose Kelvin read
succeeds with value 1, and its derived Celsius and Fahrenheit reads. -/
theorem unit_conversions_consistent_witness :
    thermistor_read_temperature_k (fun _ => 0) ⟨1, 1, 1, 1, 2⟩ 1 = .ok 1 ∧
    thermistor_read_temperature_c (fun _ => 0) ⟨1, 1, 1, 1, 2⟩ 1 = .ok (1 - 273.15) ∧
    thermistor_read_temperature_f (fun _ => 0) ⟨1, 1, 1, 1, 2⟩ 1 =
      .ok ((1 - 273.15) * (9 / 5) + 32) := by
  have hk : thermistor_read_temperature_k (fun _ => 0) ⟨1, 1, 1, 1, 2⟩ 1 = .ok 1 := by
    norm_num [thermistor_read_temperature_k, read_resistance, mathLog]
  have h := unit_conversions_consistent.1 (fun _ => 0) ⟨1, 1, 1, 1, 2⟩ 1 1 hk
  exact ⟨hk, h.1, h.2⟩

/-- The divider resistance `r2*(vin/v - 1)` is positive exactly when the
voltage sample lies strictly between 0 and the divider input voltage. -/
theorem resistance_pos_iff (r2 vin v : ℚ) (hr2 : 0 < r2) (hvin : 0 < vin) (hv : v ≠ 0) :
    0 < r2 * (vin / v - 1) ↔ 0 < v ∧ v < vin := by
  rw [mul_pos_iff_of_pos_left hr2, sub_pos]
  rcases hv.lt_or_lt with hneg | hpos
  · constructor
    · intro h1
      have h2 : vin / v < 0 := div_neg_of_pos_of_neg hvin hneg
      linarith
    · rintro ⟨h1, _⟩
      exact absurd h1 (not_lt.mpr hneg.le)
  · rw [one_lt_div hpos]
    exact ⟨fun h => ⟨hpos, h⟩, fun h => h.2⟩

/-- C10: `Thermistor.read_temperature_k` raises on part of its input domain.  With positive
`r2_ohms` and `vin_v`: a zero voltage sample raises `ZeroDivisionError`; a
sample giving non-positive resistance raises `ValueError` at `log`; any
sample at or above `vin_v` raises; and a successful (`ok`) read forces
`0 < v < vin_v` and a nonzero Steinhart–Hart denominator. -/
theorem thermistor_domain_guards (log : ℚ → ℚ) (p : ThermistorParams) (voltage_v : ℚ)
    (hr2 : 0 < p.r2_ohms) (hvin : 0 < p.vin_v) :
    (voltage_v = 0 →
      thermistor_read_temperature_k log p voltage_v = .error .zeroDivisionError) ∧
    (voltage_v ≠ 0 → p.r2_ohms * (p.vin_v / voltage_v - 1) ≤ 0 →
      thermistor_read_temperature_k log p voltage_v = .error .valueError) ∧
    (p.vin_v ≤ voltage_v →
      ∃ e, thermistor_read_temperature_k log p voltage_v = .error e) ∧
    (∀ t, thermistor_read_temperature_k log p voltage_v = .ok t →
      0 < voltage_v ∧ voltage_v < p.vin_v ∧
      p.a + p.b * log (p.r2_ohms * (p.vin_v / voltage_v - 1)) +
        p.c * log (p.r2_ohms * (p.vin_v / voltage_v - 1)) ^ 3 ≠ 0) := by
  have h1 : voltage_v = 0 →
      thermistor_read_temperature_k log p voltage_v = .error .zeroDivisionError := by
    intro h
    simp [thermistor_read_temperature_k, read_resistance, if_pos h]
  have h2 : voltage_v ≠ 0 → p.r2_ohms * (p.vin_v / voltage_v - 1) ≤ 0 →
      thermistor_read_temperature_k log p voltage_v = .error .valueError := by
    intro hv hr
    simp [thermistor_read_temperature_k, read_resistance, if_neg hv, mathLog, if_pos hr]
  refine ⟨h1, h2, ?_, ?_⟩
  · intro hge
    by_cases hv : voltage_v = 0
    · exact ⟨_, h1 hv⟩
    · have hr : p.r2_ohms * (p.vin_v / voltage_v - 1) ≤ 0 := by
        by_contra hpos
        push_neg at hpos
        have := (resistance_pos_iff _ _ _ hr2 hvin hv).mp hpos
        linarith [this.2]
      exact ⟨_, h2 hv hr⟩
  · intro t ht
    by_cases hv : voltage_v = 0
    · rw [h1 hv] at ht
      exact absurd ht (by simp)
    by_cases hr : p.r2_ohms * (p.vin_v / voltage_v - 1) ≤ 0
    · rw [h2 hv hr] at ht
      exact absurd ht (by simp)
    push_neg at hr
    have hrange := (resistance_pos_iff _ _ _ hr2 hvin hv).mp hr
    refine ⟨hrange.1, hrange.2, ?_⟩
    intro hd
    rw [thermistor_read_temperature_k] at ht
    simp only [read_resistance, if_neg hv, mathLog, if_neg (not_le.mpr hr)] at ht
    rw [if_pos hd] at ht
    exact absurd ht (by simp)

/-- Witness for C10 at the concrete configuration
`a = b = c = r2_ohms = 1`, `vin_v = 2` with `log` interpreted as the zero
function: samples 0 and 3 raise with the stated errors, and sample 1 is in
the valid domain with nonzero denominator. -/
theorem thermistor_domain_guards_witness :
    thermistor_read_temperature_k (fun _ => 0) ⟨1, 1, 1, 1, 2⟩ 0 =
      .error .zeroDivisionError ∧
    thermistor_read_temperature_k (fun _ => 0) ⟨1, 1, 1, 1, 2⟩ 3 =
      .error .valueError ∧
    ((0 : ℚ) < 1 ∧ (1 : ℚ) < 2 ∧ (1 : ℚ) + 1 * 0 + 1 * 0 ^ 3 ≠ 0) :=
  ⟨(thermistor_domain_guards (fun _ => 0) ⟨1, 1, 1, 1, 2⟩ 0
      (by norm_num) (by norm_num)).1 rfl,
   (thermistor_domain_guards (fun _ => 0) ⟨1, 1, 1, 1, 2⟩ 3
      (by norm_num) (by norm_num)).2.1 (by norm_num) (by norm_num),
   (thermistor_domain_guards (fun _ => 0) ⟨1, 1, 1, 1, 2⟩ 1
      (by norm_num) (by norm_num)).2.2.2 1
      (by norm_num [thermistor_read_temperature_k, read_resistance, mathLog])⟩

end OOHardware
